import Mathlib

/-!
Verification of the proxy mode specification parser
(`mitmproxy/proxy/mode_specs.py`).

The Python module parses proxy mode specifications such as `"regular"`,
`"reverse:https://example.com"`, or `"socks5@1234"` with the general syntax

    mode [: mode_configuration] [@ [listen_addr:]listen_port]

We embed the module shallowly: each Python function becomes a Lean
function on `String`/`List Char`, each `raise ValueError` site becomes a
distinct constructor of `PError`, and the `functools.cache` memoization is
modelled as an explicit association list keyed the way `@classmethod
@cache` keys it, namely by the pair of the receiving class and the spec
string.
-/

namespace ModeSpecs

/-- Split a list of characters at the first occurrence of `sep`:
`some (before, after)` when `sep` occurs, `none` otherwise.
Used to embed Python `str.partition`. -/
def splitFirst (sep : Char) : List Char → Option (List Char × List Char)
  | [] => none
  | c :: rest =>
    if c = sep then some ([], rest)
    else
      match splitFirst sep rest with
      | some (a, b) => some (c :: a, b)
      | none => none

/-- Split a list of characters at the last occurrence of `sep`:
`some (before, after)` when `sep` occurs, `none` otherwise.
Used to embed Python `str.rpartition`. -/
def splitLast (sep : Char) : List Char → Option (List Char × List Char)
  | [] => none
  | c :: rest =>
    match splitLast sep rest with
    | some (a, b) => some (c :: a, b)
    | none => if c = sep then some ([], rest) else none

/-- Python `s.partition(sep)` for a one-character separator: split on the
first occurrence, returning `(before, sep, after)`; when `sep` does not
occur, return `(s, "", "")`. -/
def pyPartition (sep : Char) (s : String) : String × String × String :=
  match splitFirst sep s.data with
  | some (a, b) => (⟨a⟩, String.singleton sep, ⟨b⟩)
  | none => (s, "", "")

/-- Python `s.rpartition(sep)` for a one-character separator: split on the
last occurrence, returning `(before, sep, after)`; when `sep` does not
occur, return `("", "", s)` (the input lands in the THIRD slot). -/
def pyRPartition (sep : Char) (s : String) : String × String × String :=
  match splitLast sep s.data with
  | some (a, b) => (⟨a⟩, String.singleton sep, ⟨b⟩)
  | none => ("", "", s)

/-- Tail of a Python integer-literal digit part, entered after an initial
digit was consumed: digits, with single underscores allowed between
digits (CPython `int()` accepts `"1_0"` but not `"1__0"`, `"_1"`, `"1_"`). -/
def digitTail : List Char → Bool
  | [] => true
  | ['_'] => false
  | '_' :: c :: rest => c.isDigit && digitTail rest
  | c :: rest => c.isDigit && digitTail rest

/-- A valid Python digit part: nonempty, starts with a digit, single
underscores only between digits. -/
def digitpartValid : List Char → Bool
  | [] => false
  | c :: rest => c.isDigit && digitTail rest

/-- Numeric value of a digit part, skipping underscores. -/
def digitsValue (l : List Char) : Nat :=
  l.foldl (fun acc c => if c.isDigit then acc * 10 + (c.toNat - 48) else acc) 0

/-- Python `int(s)` restricted to ASCII decimal notation: strip surrounding
whitespace, allow one optional sign, then a digit part with optional
single underscores between digits. Returns `none` where CPython raises
`ValueError`. -/
def pyInt (s : String) : Option Int :=
  let l := ((s.data.dropWhile Char.isWhitespace).reverse.dropWhile
    Char.isWhitespace).reverse
  match l with
  | '+' :: rest => if digitpartValid rest then some (digitsValue rest : Int) else none
  | '-' :: rest => if digitpartValid rest then some (-(digitsValue rest : Int)) else none
  | _ => if digitpartValid l then some (digitsValue l : Int) else none

/-- Python `s.lower()` restricted to ASCII letters (all registered mode
names are ASCII). -/
def pyLower (s : String) : String := ⟨s.data.map Char.toLower⟩

/-- The proxy mode variants: the concrete subclasses of `ProxyMode`
registered in `ProxyMode.__types` by `__init_subclass__`
(mode_specs.py lines 63-68 and the class definitions, lines 164-250). -/
inductive ModeType where
  | regular
  | transparent
  | upstream
  | reverse
  | socks5
  | dns
  | dtls
deriving DecidableEq

/-- The variant registry `ProxyMode.__types`: lowercase type name to
variant, as derived by `__init_subclass__` (`cls.__name__.removesuffix
("Mode").lower()`). -/
def modeTypes : List (String × ModeType) :=
  [("regular", ModeType.regular),
   ("transparent", ModeType.transparent),
   ("upstream", ModeType.upstream),
   ("reverse", ModeType.reverse),
   ("socks5", ModeType.socks5),
   ("dns", ModeType.dns),
   ("dtls", ModeType.dtls)]

/-- Registry lookup, `ProxyMode.__types[mode.lower()]` (line 107). -/
def lookupMode (name : String) : Option ModeType := modeTypes.lookup name

/-- The class variable `default_port`: 8080 on `ProxyMode` (line 54),
overridden to 1080 in `Socks5Mode`, 53 in `DnsMode`, 8084 in `DtlsMode`. -/
def default_port : ModeType → Int
  | ModeType.socks5 => 1080
  | ModeType.dns => 53
  | ModeType.dtls => 8084
  | _ => 8080

/-- The class variable `transport_protocol`: "tcp" by default (line 58),
"udp" in `DnsMode` and `DtlsMode`. -/
def transport_protocol : ModeType → String
  | ModeType.dns => "udp"
  | ModeType.dtls => "udp"
  | _ => "tcp"

/-- A parsed proxy mode: the fields of the frozen dataclass `ProxyMode`
(lines 43-50) plus the variant tag and the variant-specific fields
`scheme` and `address` set by the `__post_init__` validators of
`UpstreamMode`, `ReverseMode`, `DnsMode` and `DtlsMode`. -/
structure ProxyMode where
  type : ModeType
  full_spec : String
  data : String
  custom_listen_host : Option String
  custom_listen_port : Option Int
  scheme : Option String
  address : Option (String × Int)
deriving DecidableEq

/-- One constructor per distinct `raise ValueError` site of the module,
plus `resolverError` for failures propagated from
`mitmproxy.net.server_spec.parse` and `frozen` for the `RuntimeError` of
`set_state`. -/
inductive PError where
  | invalidPort (portStr : String)
  | unknownMode
  | wrongMode
  | unexpectedArguments
  | invalidUpstreamScheme
  | invalidReverseScheme
  | invalidDnsMode
  | invalidDnsScheme
  | invalidDtlsMode
  | invalidDtlsScheme
  | resolverError (msg : String)
  | frozen
deriving DecidableEq

/-- Split a character list at the first occurrence of the three-character
scheme separator `://`: `some (scheme, rest)` when present. Helper for the
spec-modelled Address-Spec Resolver. -/
def splitScheme : List Char → Option (List Char × List Char)
  | [] => none
  | ':' :: '/' :: '/' :: rest => some ([], rest)
  | c :: rest =>
    match splitScheme rest with
    | some (a, b) => some (c :: a, b)
    | none => none

/-- Parse a nonempty all-decimal-digit character list as a natural number.
Helper for the spec-modelled Address-Spec Resolver port field. -/
def decDigits (l : List Char) : Option Nat :=
  if l ≠ [] && l.all Char.isDigit then some (digitsValue l) else none

/-- Modelled from the spec: the external Address-Spec Resolver
`mitmproxy.net.server_spec.parse` (module `mitmproxy/net/server_spec.py`
is not part of this repository snapshot). Per the spec it parses a
`[scheme://]host:port` fragment into `(scheme, (host, port))`, applying
the caller-supplied default scheme when none is given, and fails when the
fragment is not a well-formed `host:port` or the port is out of range. -/
def server_spec_parse (raw : String) (default_scheme : String) :
    Except String (String × (String × Int)) :=
  let (scheme, hostport) :=
    match splitScheme raw.data with
    | some (sch, rest) => (String.mk sch, rest)
    | none => (default_scheme, raw.data)
  match splitLast ':' hostport with
  | none => Except.error ("invalid server address: " ++ raw)
  | some (host, portChars) =>
    if host.isEmpty then Except.error ("invalid server address: " ++ raw)
    else
      match decDigits portChars with
      | none => Except.error ("invalid server address: " ++ raw)
      | some p =>
        if 65535 < p then Except.error ("invalid server address: " ++ raw)
        else Except.ok (scheme, (String.mk host, (p : Int)))

/-- Lines 83-86 of `ProxyMode.parse`:
`head, _, listen_at = spec.rpartition("@")` followed by
`if not head: head = listen_at; listen_at = ""`.
Returns the final `(head, listen_at)` pair. -/
def headListen (spec : String) : String × String :=
  let p := pyRPartition '@' spec
  if p.1 = "" then (p.2.2, "") else (p.1, p.2.2)

/-- Lines 90-104 of `ProxyMode.parse`: parse the listen segment into an
optional host and an optional port. When `listen_at` is nonempty it is
split at the last `:` into `host` and `port_str` when it contains `:`
(otherwise `host = None` and `port_str = listen_at`), and `port_str` must
be an integer in `[0, 65535]` or the parse fails with `invalid port`. -/
def parseListen (listen_at : String) : Except PError (Option String × Option Int) :=
  if listen_at ≠ "" then
    let hp : Option String × String :=
      match splitLast ':' listen_at.data with
      | some (h, p) => (some (String.mk h), String.mk p)
      | none => (none, listen_at)
    match pyInt hp.2 with
    | none => Except.error (PError.invalidPort hp.2)
    | some port =>
      if port < 0 ∨ 65535 < port then Except.error (PError.invalidPort hp.2)
      else Except.ok (hp.1, some port)
  else Except.ok (none, none)

/-- The helper `_check_empty` (lines 159-161): fail with
`mode takes no arguments` when `data` is nonempty. -/
def check_empty (data : String) : Except PError Unit :=
  if data ≠ "" then Except.error PError.unexpectedArguments else Except.ok ()

/-- `UpstreamMode.__post_init__` (lines 184-188): resolve `data` with
default scheme `http` and require the scheme to be `http` or `https`. -/
def upstream_post_init (m : ProxyMode) : Except PError ProxyMode :=
  match server_spec_parse m.data "http" with
  | Except.error e => Except.error (PError.resolverError e)
  | Except.ok (scheme, addr) =>
    if scheme ≠ "http" ∧ scheme ≠ "https" then Except.error PError.invalidUpstreamScheme
    else Except.ok { m with scheme := some scheme, address := some addr }

/-- `ReverseMode.__post_init__` (lines 197-201): resolve `data` with
default scheme `https` and require the scheme to be one of `http`,
`https`, `tcp`, `tls`. -/
def reverse_post_init (m : ProxyMode) : Except PError ProxyMode :=
  match server_spec_parse m.data "https" with
  | Except.error e => Except.error (PError.resolverError e)
  | Except.ok (scheme, addr) =>
    if scheme ≠ "http" ∧ scheme ≠ "https" ∧ scheme ≠ "tcp" ∧ scheme ≠ "tls" then
      Except.error PError.invalidReverseScheme
    else Except.ok { m with scheme := some scheme, address := some addr }

/-- `DnsMode.__post_init__` (lines 220-229): accept `""`, `"resolve-local"`
and `"transparent"` as-is; otherwise the part before the first `:` must be
`reverse` and the rest is resolved with default scheme `dns`, whose result
must have scheme `dns`. -/
def dns_post_init (m : ProxyMode) : Except PError ProxyMode :=
  if m.data = "" ∨ m.data = "resolve-local" ∨ m.data = "transparent" then Except.ok m
  else
    let p := pyPartition ':' m.data
    if p.1 ≠ "reverse" then Except.error PError.invalidDnsMode
    else
      match server_spec_parse p.2.2 "dns" with
      | Except.error e => Except.error (PError.resolverError e)
      | Except.ok (scheme, addr) =>
        if scheme ≠ "dns" then Except.error PError.invalidDnsScheme
        else Except.ok { m with scheme := some scheme, address := some addr }

/-- `DtlsMode.__post_init__` (lines 243-250): the part before the first `:`
must be `reverse` and the rest is resolved with default scheme `dtls`,
whose result must have scheme `dtls`. -/
def dtls_post_init (m : ProxyMode) : Except PError ProxyMode :=
  let p := pyPartition ':' m.data
  if p.1 ≠ "reverse" then Except.error PError.invalidDtlsMode
  else
    match server_spec_parse p.2.2 "dtls" with
    | Except.error e => Except.error (PError.resolverError e)
    | Except.ok (scheme, addr) =>
      if scheme ≠ "dtls" then Except.error PError.invalidDtlsScheme
      else Except.ok { m with scheme := some scheme, address := some addr }

/-- Dispatch to the variant `__post_init__` validator: abstract on
`ProxyMode`, implemented by each concrete subclass. -/
def post_init (m : ProxyMode) : Except PError ProxyMode :=
  match m.type with
  | ModeType.regular =>
    match check_empty m.data with
    | Except.error e => Except.error e
    | Except.ok _ => Except.ok m
  | ModeType.transparent =>
    match check_empty m.data with
    | Except.error e => Except.error e
    | Except.ok _ => Except.ok m
  | ModeType.socks5 =>
    match check_empty m.data with
    | Except.error e => Except.error e
    | Except.ok _ => Except.ok m
  | ModeType.upstream => upstream_post_init m
  | ModeType.reverse => reverse_post_init m
  | ModeType.dns => dns_post_init m
  | ModeType.dtls => dtls_post_init m

/-- `issubclass(mode_cls, cls)` (line 111): the classmethod receiver `cls`
is either `ProxyMode` itself (`none`, every variant passes) or one of the
concrete subclasses (`some t`; the concrete subclasses are pairwise
unrelated, so the check is equality with `t`). -/
def issubclass (mode_cls : ModeType) (cls : Option ModeType) : Bool :=
  match cls with
  | none => true
  | some t => decide (mode_cls = t)

/-- The classmethod `ProxyMode.parse` (lines 79-119), parameterised by the
receiving class `cls` (`none` for `ProxyMode` itself): split off the
listen segment (`headListen`), split the head at the first `:` into mode
name and data, validate the listen segment, look the lowercased mode name
up in the registry, check the subclass constraint, then construct the
variant and run its `__post_init__` validator. -/
def parseAs (cls : Option ModeType) (spec : String) : Except PError ProxyMode :=
  match parseListen (headListen spec).2 with
  | Except.error e => Except.error e
  | Except.ok hostport =>
    match lookupMode (pyLower (pyPartition ':' (headListen spec).1).1) with
    | none => Except.error PError.unknownMode
    | some mode_cls =>
      if issubclass mode_cls cls then
        post_init
          { type := mode_cls
            full_spec := spec
            data := (pyPartition ':' (headListen spec).1).2.2
            custom_listen_host := hostport.1
            custom_listen_port := hostport.2
            scheme := none
            address := none }
      else Except.error PError.wrongMode

/-- `ProxyMode.parse(spec)` called on the abstract base class itself. -/
def parse (spec : String) : Except PError ProxyMode := parseAs none spec

/-- `ProxyMode.listen_host` (lines 121-132): the custom listen host if
set, else the caller default if given, else the empty string. -/
def listen_host (m : ProxyMode) (default : Option String) : String :=
  match m.custom_listen_host with
  | some h => h
  | none =>
    match default with
    | some d => d
    | none => ""

/-- `ProxyMode.listen_port` (lines 134-145): the custom listen port if
set, else the caller default if given, else the variant `default_port`. -/
def listen_port (m : ProxyMode) (default : Option Int) : Int :=
  match m.custom_listen_port with
  | some p => p
  | none =>
    match default with
    | some d => d
    | none => default_port m.type

/-- `ProxyMode.from_state` (lines 147-149): delegates to `ProxyMode.parse`
(on the base class, whatever the receiver). -/
def from_state (state : String) : Except PError ProxyMode := parse state

/-- `ProxyMode.get_state` (lines 151-152): the full spec, unchanged. -/
def get_state (m : ProxyMode) : String := m.full_spec

/-- `ProxyMode.set_state` (lines 154-156): raise `RuntimeError` when the
new state differs from `full_spec`; otherwise do nothing. The returned
mode is the receiver, unchanged (the method never writes any field). -/
def set_state (m : ProxyMode) (state : String) : Except PError ProxyMode :=
  if state ≠ m.full_spec then Except.error PError.frozen else Except.ok m

/-- `DnsMode.resolve_local` (lines 231-233). -/
def resolve_local (m : ProxyMode) : Bool :=
  m.data = "" ∨ m.data = "resolve-local"

/-- The memoization cache of `@classmethod @cache parse`: `functools.cache`
wraps the underlying two-argument function, so its key is the pair
`(cls, spec)` of the receiving class and the spec string. -/
abbrev Cache := List ((Option ModeType × String) × ProxyMode)

/-- One memoized call `cls.parse(spec)` against an explicit cache state:
returns the result, the new cache state, and whether the underlying parse
(including validation) actually ran. `functools.cache` stores only
successful results; an exception leaves the cache unchanged. -/
def parseCached (c : Cache) (cls : Option ModeType) (spec : String) :
    Except PError ProxyMode × Cache × Bool :=
  match c.lookup (cls, spec) with
  | some m => (Except.ok m, c, false)
  | none =>
    match parseAs cls spec with
    | Except.ok m => (Except.ok m, ((cls, spec), m) :: c, true)
    | Except.error e => (Except.error e, c, true)

/-- The port substring of a listen segment: the part after the last `:`
when the segment contains one, the whole segment otherwise (the
`port_str` of lines 91-95). -/
def listenPortStr (listen_at : String) : String :=
  match splitLast ':' listen_at.data with
  | some hp => String.mk hp.2
  | none => listen_at

/-- Whether a port string parses, Python `int` style, as an integer in
the range `[0, 65535]` (lines 96-99). -/
def portOk (ps : String) : Bool :=
  match pyInt ps with
  | some n => decide (0 ≤ n) && decide (n ≤ 65535)
  | none => false

/-- The head/listen split exactly as the specification text states it:
head is everything before the last `@`, the listen segment everything
after it, with no case distinction on an empty head. Stated only for
comparison with `headListen`, which is what the code computes. -/
def claimSplitAtLast (s : String) : String × String :=
  match splitLast '@' s.data with
  | some (a, b) => (String.mk a, String.mk b)
  | none => (s, "")

/-- Every variant validator preserves the base fields of the draft
instance: `__post_init__` only ever sets `scheme` and `address`. -/
theorem post_init_base (m m' : ProxyMode) (h : post_init m = Except.ok m') :
    m'.type = m.type ∧ m'.full_spec = m.full_spec ∧ m'.data = m.data ∧
    m'.custom_listen_host = m.custom_listen_host ∧
    m'.custom_listen_port = m.custom_listen_port := by
  unfold post_init at h
  split at h <;>
    simp only [check_empty, upstream_post_init, reverse_post_init,
      dns_post_init, dtls_post_init] at h <;>
    (repeat' split at h) <;>
    first
      | exact Except.noConfusion h
      | (injection h with h2; subst h2; simp_all)

/-- A successful parse records the input string verbatim in `full_spec`,
stores the first-`:`-split mode data, and stores the host/port the listen
segment parser produced. -/
theorem parseAs_ok_base (cls : Option ModeType) (spec : String) (m : ProxyMode)
    (h : parseAs cls spec = Except.ok m) :
    m.full_spec = spec ∧
    m.data = (pyPartition ':' (headListen spec).1).2.2 ∧
    parseListen (headListen spec).2 =
      Except.ok (m.custom_listen_host, m.custom_listen_port) ∧
    lookupMode (pyLower (pyPartition ':' (headListen spec).1).1) = some m.type := by
  unfold parseAs at h
  split at h
  · exact Except.noConfusion h
  next hostport heq1 =>
    split at h
    · exact Except.noConfusion h
    next mode_cls heq2 =>
      split at h
      · obtain ⟨ht, hf, hd, hh, hp⟩ := post_init_base _ _ h
        simp only at ht hf hd hh hp
        refine ⟨hf, hd, ?_, ?_⟩
        · rw [hh, hp, heq1]
        · rw [heq2, ht]
      · exact Except.noConfusion h

/-- Helper for C4: the errors of the listen-segment parser, characterised.
`parseListen` fails, necessarily with `invalidPort`, exactly when the
segment is nonempty and its port substring does not parse as an integer
in `[0, 65535]`. -/
theorem parseListen_invalidPort (l : String) :
    (∃ p, parseListen l = Except.error (PError.invalidPort p)) ↔
      (l ≠ "" ∧ portOk (listenPortStr l) = false) := by
  unfold parseListen listenPortStr portOk
  by_cases hl : l = ""
  · simp [hl]
  · rw [if_pos hl]
    simp only [ne_eq, hl, not_false_iff, true_and]
    cases hsp : splitLast ':' l.data with
    | none =>
      simp only
      cases hpi : pyInt l with
      | none => simp
      | some n =>
        simp only
        by_cases hr : n < 0 ∨ 65535 < n
        · rw [if_pos hr]
          simp
          omega
        · rw [if_neg hr]
          simp
          omega
    | some ab =>
      obtain ⟨a, b⟩ := ab
      simp only
      cases hpi : pyInt (String.mk b) with
      | none => simp
      | some n =>
        simp only
        by_cases hr : n < 0 ∨ 65535 < n
        · rw [if_pos hr]
          simp
          omega
        · rw [if_neg hr]
          simp
          omega

set_option linter.unnecessarySeqFocus false in
/-- Helper for C4: no variant validator ever raises the `invalid port`
error; that error comes only from the listen-segment parser. -/
theorem post_init_not_invalidPort (m : ProxyMode) (p : String) :
    post_init m ≠ Except.error (PError.invalidPort p) := by
  intro h
  unfold post_init at h
  split at h <;>
    simp only [check_empty, upstream_post_init, reverse_post_init,
      dns_post_init, dtls_post_init] at h <;>
    (repeat' split at h) <;>
    first
      | (simp_all
         done)
      | (rename_i e2 heq2
         by_cases hd : m.data = "" <;> simp [hd] at heq2 <;> simp_all)

/-- Helper for C4: `parse` fails with `invalid port` exactly when the
listen-segment parser does, on the listen segment `parse` extracted. -/
theorem parse_invalidPort_iff (spec : String) (p : String) :
    parse spec = Except.error (PError.invalidPort p) ↔
      parseListen (headListen spec).2 = Except.error (PError.invalidPort p) := by
  unfold parse parseAs
  constructor
  · intro h
    split at h
    next e heq =>
      injection h with h2
      rw [h2] at heq
      exact heq
    next hostport heq =>
      split at h
      · simp at h
      next mode_cls heq2 =>
        split at h
        · exact absurd h (post_init_not_invalidPort _ p)
        · simp at h
  · intro h
    rw [h]

/-- C1 counterexample: the claim says every spec containing `@` is split
at the last `@` into head and listen segment, but for `"@socks5"` the
code moves the whole text after the `@` into the head and leaves the
listen segment empty, so the parse succeeds as a socks5 mode rather than
treating `socks5` as a listen address. -/
theorem C1_counterexample :
    headListen "@socks5" = ("socks5", "") ∧
    claimSplitAtLast "@socks5" = ("", "socks5") ∧
    headListen "@socks5" ≠ claimSplitAtLast "@socks5" ∧
    parse "@socks5" = Except.ok
      { type := ModeType.socks5, full_spec := "@socks5", data := "",
        custom_listen_host := none, custom_listen_port := none,
        scheme := none, address := none } :=
  ⟨rfl, rfl, by decide, rfl⟩

/-- C1 (amended): for every spec containing `@` whose text before the
last `@` is nonempty, `parse` splits at the last `@` into head and listen
segment, exactly as the spec describes; the mode data of any successful
parse is the part of the head after the first `:`; and the concrete
upstream example parses with `custom_listen_host = "127.0.0.1"`,
`custom_listen_port = 9000` and mode data `"http://user@host:8080"`. -/
theorem C1_delimiters :
    (∀ (s : String) (a b : List Char), splitLast '@' s.data = some (a, b) →
      a ≠ [] →
      headListen s = (String.mk a, String.mk b) ∧
      claimSplitAtLast s = (String.mk a, String.mk b)) ∧
    (∀ (spec : String) (m : ProxyMode), parse spec = Except.ok m →
      m.data = (pyPartition ':' (headListen spec).1).2.2) ∧
    (parse "upstream:http://user@host:8080@127.0.0.1:9000").toOption.map
        (fun m => (m.data, m.custom_listen_host, m.custom_listen_port)) =
      some ("http://user@host:8080", some "127.0.0.1", some 9000) := by
  refine ⟨?_, ?_, rfl⟩
  · intro s a b h ha
    constructor
    · unfold headListen pyRPartition
      rw [h]
      simp only
      rw [if_neg]
      intro hc
      exact ha (congrArg String.data hc)
    · unfold claimSplitAtLast
      rw [h]
  · intro spec m h
    exact (parseAs_ok_base none spec m h).2.1

/-- Witness for C1 at the concrete upstream spec of the claim. -/
theorem C1_delimiters_witness :
    (headListen "upstream:http://user@host:8080@127.0.0.1:9000" =
      (String.mk "upstream:http://user@host:8080".data,
       String.mk "127.0.0.1:9000".data) ∧
     claimSplitAtLast "upstream:http://user@host:8080@127.0.0.1:9000" =
      (String.mk "upstream:http://user@host:8080".data,
       String.mk "127.0.0.1:9000".data)) :=
  C1_delimiters.1 "upstream:http://user@host:8080@127.0.0.1:9000"
    "upstream:http://user@host:8080".data "127.0.0.1:9000".data
    (by decide) (by decide)

/-- C2: for every spec string on which `parse` succeeds, `get_state`
returns the spec unchanged, re-parsing the serialized state gives the
same parse result, and `from_state` is the same function as `parse`. -/
theorem C2_roundtrip (spec : String) (m : ProxyMode)
    (h : parse spec = Except.ok m) :
    get_state m = spec ∧ parse (get_state m) = Except.ok m ∧
    from_state spec = parse spec := by
  have hf := (parseAs_ok_base none spec m h).1
  refine ⟨hf, ?_, rfl⟩
  show parse m.full_spec = Except.ok m
  rw [hf]; exact h

/-- Witness for C2 at the concrete spec `"regular"`. -/
theorem C2_roundtrip_witness :
    get_state
      { type := ModeType.regular, full_spec := "regular", data := "",
        custom_listen_host := none, custom_listen_port := none,
        scheme := none, address := none } = "regular" ∧
    parse (get_state
      { type := ModeType.regular, full_spec := "regular", data := "",
        custom_listen_host := none, custom_listen_port := none,
        scheme := none, address := none }) = Except.ok
      { type := ModeType.regular, full_spec := "regular", data := "",
        custom_listen_host := none, custom_listen_port := none,
        scheme := none, address := none } ∧
    from_state "regular" = parse "regular" :=
  C2_roundtrip "regular" _ rfl

/-- C3 counterexample: the cache of `@classmethod @cache parse` is keyed
by the pair of the receiving class and the spec string, not by the spec
string alone. Starting from an empty cache, a `ProxyMode.parse("regular")`
followed by a `RegularMode.parse("regular")` with the very same string is
a cache miss: the underlying parse (with validation) runs again and the
cache ends up with two entries for the one string. -/
theorem C3_counterexample :
    (parseCached (parseCached [] none "regular").2.1
        (some ModeType.regular) "regular").2.2 = true ∧
    (parseCached (parseCached [] none "regular").2.1
        (some ModeType.regular) "regular").2.1.length = 2 :=
  ⟨rfl, rfl⟩

/-- C3 (amended): the cache is keyed by the pair of the parse entry point
class and the exact spec string. A lookup hit returns the cached instance
with no re-validation and no cache change; in particular a second call
through the same entry point with the same string is such a hit; and
parsing the same string through the subtype-scoped entry point of the
resulting mode gives a value-equal result. -/
theorem C3_cache_keying :
    (∀ (c : Cache) (cls : Option ModeType) (spec : String) (m : ProxyMode),
      c.lookup (cls, spec) = some m →
      parseCached c cls spec = (Except.ok m, c, false)) ∧
    (∀ (cls : Option ModeType) (spec : String) (m : ProxyMode),
      parseAs cls spec = Except.ok m →
      parseCached (parseCached [] cls spec).2.1 cls spec =
        (Except.ok m, [((cls, spec), m)], false)) ∧
    (∀ (spec : String) (m : ProxyMode),
      parse spec = Except.ok m → parseAs (some m.type) spec = Except.ok m) := by
  refine ⟨?_, ?_, ?_⟩
  · intro c cls spec m h
    unfold parseCached
    rw [h]
  · intro cls spec m h
    have h1 : parseCached [] cls spec = (Except.ok m, [((cls, spec), m)], true) := by
      unfold parseCached
      rw [h]
      rfl
    rw [h1]
    unfold parseCached
    simp [List.lookup]
  · intro spec m h
    unfold parse at h
    unfold parseAs at h ⊢
    split at h
    · exact Except.noConfusion h
    next hostport heq1 =>
      split at h
      · exact Except.noConfusion h
      next mode_cls heq2 =>
        simp only [issubclass] at h
        rw [if_pos trivial] at h
        have ht := (post_init_base _ _ h).1
        simp only at ht
        rw [ht]
        simp only [issubclass]
        simpa using h

/-- Witness for C3 at a concrete one-entry cache. -/
theorem C3_cache_keying_witness :
    parseCached
      [((none, "regular"),
        { type := ModeType.regular, full_spec := "regular", data := "",
          custom_listen_host := none, custom_listen_port := none,
          scheme := none, address := none })] none "regular" =
      (Except.ok
        { type := ModeType.regular, full_spec := "regular", data := "",
          custom_listen_host := none, custom_listen_port := none,
          scheme := none, address := none },
       [((none, "regular"),
        { type := ModeType.regular, full_spec := "regular", data := "",
          custom_listen_host := none, custom_listen_port := none,
          scheme := none, address := none })], false) :=
  C3_cache_keying.1 _ none "regular" _ rfl

/-- C4: `parse` fails with `invalid port` exactly when the listen segment
it extracts is nonempty and the port substring of that segment does not
parse as an integer in `[0, 65535]`; `parse("regular@70000")` fails with
`invalid port` while `parse("regular@0")` and `parse("regular@65535")`
succeed. -/
theorem C4_port_validation :
    (∀ spec : String,
      (∃ p, parse spec = Except.error (PError.invalidPort p)) ↔
        ((headListen spec).2 ≠ "" ∧
         portOk (listenPortStr (headListen spec).2) = false)) ∧
    parse "regular@70000" = Except.error (PError.invalidPort "70000") ∧
    parse "regular@0" = Except.ok
      { type := ModeType.regular, full_spec := "regular@0", data := "",
        custom_listen_host := none, custom_listen_port := some 0,
        scheme := none, address := none } ∧
    parse "regular@65535" = Except.ok
      { type := ModeType.regular, full_spec := "regular@65535", data := "",
        custom_listen_host := none, custom_listen_port := some 65535,
        scheme := none, address := none } := by
  refine ⟨?_, rfl, rfl, rfl⟩
  intro spec
  calc (∃ p, parse spec = Except.error (PError.invalidPort p))
      ↔ (∃ p, parseListen (headListen spec).2 =
          Except.error (PError.invalidPort p)) :=
        exists_congr (fun p => parse_invalidPort_iff spec p)
    _ ↔ _ := parseListen_invalidPort (headListen spec).2

/-- Witness for C4 at the concrete spec `"regular@70000"`. -/
theorem C4_port_validation_witness :
    ∃ p, parse "regular@70000" = Except.error (PError.invalidPort p) :=
  (C4_port_validation.1 "regular@70000").mpr (by decide)

/-- C5 counterexample: `parse("regular@:443")` stores the empty host as
`custom_listen_host = some ""`, which counts as set, so `listen_host`
returns `""` and not the caller-supplied default, contradicting the
claim that an empty host behaves as unset. -/
theorem C5_counterexample :
    (parse "regular@:443").toOption.map (fun m => m.custom_listen_host) =
      some (some "") ∧
    (parse "regular@:443").toOption.map
        (fun m => listen_host m (some "127.0.0.1")) = some "" ∧
    some ("" : String) ≠ some ("127.0.0.1" : String) :=
  ⟨rfl, rfl, by decide⟩

/-- C5 (amended): an empty host part before the last `:` of the listen
segment is stored as the empty string, which is set rather than unset:
whenever the listen segment splits with an empty host, the parsed host is
`some ""`, and `listen_host` on such a mode returns `""` whether or not a
caller default is given; concretely for `parse("regular@:443")`. -/
theorem C5_empty_host :
    (∀ (la : String) (p : List Char), la ≠ "" →
      splitLast ':' la.data = some ([], p) →
      ∀ hp, parseListen la = Except.ok hp → hp.1 = some "") ∧
    (∀ (m : ProxyMode) (d : Option String), m.custom_listen_host = some "" →
      listen_host m d = "") ∧
    parse "regular@:443" = Except.ok
      { type := ModeType.regular, full_spec := "regular@:443", data := "",
        custom_listen_host := some "", custom_listen_port := some 443,
        scheme := none, address := none } ∧
    (∀ d, listen_host
      { type := ModeType.regular, full_spec := "regular@:443", data := "",
        custom_listen_host := some "", custom_listen_port := some 443,
        scheme := none, address := none } d = "") := by
  refine ⟨?_, ?_, rfl, ?_⟩
  · intro la p hla hsplit hp h
    unfold parseListen at h
    rw [if_pos hla] at h
    simp only [hsplit] at h
    split at h
    · exact Except.noConfusion h
    · split at h
      · exact Except.noConfusion h
      · injection h with h2
        rw [← h2]
  · intro m d h; simp [listen_host, h]
  · intro d; simp [listen_host]

/-- Witness for C5 at the mode parsed from `"regular@:443"` with the
default host `"127.0.0.1"`. -/
theorem C5_empty_host_witness :
    listen_host
      { type := ModeType.regular, full_spec := "regular@:443", data := "",
        custom_listen_host := some "", custom_listen_port := some 443,
        scheme := none, address := none } (some "127.0.0.1") = "" :=
  C5_empty_host.2.1
    { type := ModeType.regular, full_spec := "regular@:443", data := "",
      custom_listen_host := some "", custom_listen_port := some 443,
      scheme := none, address := none } (some "127.0.0.1") rfl

/-- C6: the dns validator accepts `""`, `"resolve-local"` and
`"transparent"` unchanged with no address resolution, rejects any other
leading token before `:` with `invalid dns mode`, delegates
`reverse:`-prefixed data to the Address-Spec Resolver with default scheme
`dns` and rejects a resolved scheme other than `dns`; `resolve_local`
holds exactly for `""` and `"resolve-local"`; `parse("dns")` yields a dns
mode with `resolve_local = true` and `parse("dns:reverse:dns://1.1.1.1:53")`
yields scheme `"dns"`, address `("1.1.1.1", 53)`, `resolve_local = false`. -/
theorem C6_dns_validation :
    (∀ m : ProxyMode,
      (m.data = "" ∨ m.data = "resolve-local" ∨ m.data = "transparent") →
      dns_post_init m = Except.ok m) ∧
    (∀ m : ProxyMode,
      ¬(m.data = "" ∨ m.data = "resolve-local" ∨ m.data = "transparent") →
      (pyPartition ':' m.data).1 ≠ "reverse" →
      dns_post_init m = Except.error PError.invalidDnsMode) ∧
    (∀ m : ProxyMode,
      ¬(m.data = "" ∨ m.data = "resolve-local" ∨ m.data = "transparent") →
      (pyPartition ':' m.data).1 = "reverse" →
      dns_post_init m =
        (match server_spec_parse (pyPartition ':' m.data).2.2 "dns" with
         | Except.error e => Except.error (PError.resolverError e)
         | Except.ok (scheme, addr) =>
           if scheme ≠ "dns" then Except.error PError.invalidDnsScheme
           else Except.ok { m with scheme := some scheme, address := some addr })) ∧
    (∀ m : ProxyMode, resolve_local m = true ↔
      (m.data = "" ∨ m.data = "resolve-local")) ∧
    parse "dns" = Except.ok
      { type := ModeType.dns, full_spec := "dns", data := "",
        custom_listen_host := none, custom_listen_port := none,
        scheme := none, address := none } ∧
    resolve_local
      { type := ModeType.dns, full_spec := "dns", data := "",
        custom_listen_host := none, custom_listen_port := none,
        scheme := none, address := none } = true ∧
    parse "dns:reverse:dns://1.1.1.1:53" = Except.ok
      { type := ModeType.dns, full_spec := "dns:reverse:dns://1.1.1.1:53",
        data := "reverse:dns://1.1.1.1:53",
        custom_listen_host := none, custom_listen_port := none,
        scheme := some "dns", address := some ("1.1.1.1", 53) } ∧
    resolve_local
      { type := ModeType.dns, full_spec := "dns:reverse:dns://1.1.1.1:53",
        data := "reverse:dns://1.1.1.1:53",
        custom_listen_host := none, custom_listen_port := none,
        scheme := some "dns", address := some ("1.1.1.1", 53) } = false := by
  refine ⟨?_, ?_, ?_, ?_, rfl, rfl, rfl, rfl⟩
  · intro m hd
    unfold dns_post_init
    rw [if_pos hd]
  · intro m hd hrev
    unfold dns_post_init
    rw [if_neg hd]
    simp only
    rw [if_pos hrev]
  · intro m hd hrev
    unfold dns_post_init
    rw [if_neg hd]
    simp only
    rw [if_neg (by simp [hrev])]
  · intro m
    simp [resolve_local]

/-- Witness for C6 at a dns mode with data `"transparent"`. -/
theorem C6_dns_validation_witness :
    dns_post_init
      { type := ModeType.dns, full_spec := "dns:transparent",
        data := "transparent",
        custom_listen_host := none, custom_listen_port := none,
        scheme := none, address := none } = Except.ok
      { type := ModeType.dns, full_spec := "dns:transparent",
        data := "transparent",
        custom_listen_host := none, custom_listen_port := none,
        scheme := none, address := none } :=
  C6_dns_validation.1
    { type := ModeType.dns, full_spec := "dns:transparent",
      data := "transparent",
      custom_listen_host := none, custom_listen_port := none,
      scheme := none, address := none } (by simp)

/-- C7: the upstream validator resolves its data with default scheme
`http` and rejects any resolved scheme outside `{http, https}`; the
reverse validator resolves with default scheme `https` and rejects any
resolved scheme outside `{http, https, tcp, tls}`; otherwise both store
the resolved scheme and address verbatim; resolver failures propagate;
and `parse("upstream:ftp://host:21")` fails with the invalid-scheme
error. -/
theorem C7_scheme_validation :
    (∀ (m : ProxyMode) (e : String),
      server_spec_parse m.data "http" = Except.error e →
      upstream_post_init m = Except.error (PError.resolverError e)) ∧
    (∀ (m : ProxyMode) (sch : String) (addr : String × Int),
      server_spec_parse m.data "http" = Except.ok (sch, addr) →
      sch ≠ "http" → sch ≠ "https" →
      upstream_post_init m = Except.error PError.invalidUpstreamScheme) ∧
    (∀ (m : ProxyMode) (sch : String) (addr : String × Int),
      server_spec_parse m.data "http" = Except.ok (sch, addr) →
      (sch = "http" ∨ sch = "https") →
      upstream_post_init m =
        Except.ok { m with scheme := some sch, address := some addr }) ∧
    (∀ (m : ProxyMode) (e : String),
      server_spec_parse m.data "https" = Except.error e →
      reverse_post_init m = Except.error (PError.resolverError e)) ∧
    (∀ (m : ProxyMode) (sch : String) (addr : String × Int),
      server_spec_parse m.data "https" = Except.ok (sch, addr) →
      sch ≠ "http" → sch ≠ "https" → sch ≠ "tcp" → sch ≠ "tls" →
      reverse_post_init m = Except.error PError.invalidReverseScheme) ∧
    (∀ (m : ProxyMode) (sch : String) (addr : String × Int),
      server_spec_parse m.data "https" = Except.ok (sch, addr) →
      (sch = "http" ∨ sch = "https" ∨ sch = "tcp" ∨ sch = "tls") →
      reverse_post_init m =
        Except.ok { m with scheme := some sch, address := some addr }) ∧
    parse "upstream:ftp://host:21" = Except.error PError.invalidUpstreamScheme := by
  refine ⟨?_, ?_, ?_, ?_, ?_, ?_, rfl⟩
  · intro m e h
    unfold upstream_post_init
    rw [h]
  · intro m sch addr h h1 h2
    unfold upstream_post_init
    rw [h]
    simp only
    rw [if_pos ⟨h1, h2⟩]
  · intro m sch addr h hor
    unfold upstream_post_init
    rw [h]
    simp only
    rw [if_neg (by rcases hor with h | h <;> simp [h])]
  · intro m e h
    unfold reverse_post_init
    rw [h]
  · intro m sch addr h h1 h2 h3 h4
    unfold reverse_post_init
    rw [h]
    simp only
    rw [if_pos ⟨h1, h2, h3, h4⟩]
  · intro m sch addr h hor
    unfold reverse_post_init
    rw [h]
    simp only
    rw [if_neg (by rcases hor with h | h | h | h <;> simp [h])]

/-- Witness for C7 at the upstream mode parsed from
`"upstream:ftp://host:21"`. -/
theorem C7_scheme_validation_witness :
    upstream_post_init
      { type := ModeType.upstream, full_spec := "upstream:ftp://host:21",
        data := "ftp://host:21",
        custom_listen_host := none, custom_listen_port := none,
        scheme := none, address := none } =
      Except.error PError.invalidUpstreamScheme :=
  C7_scheme_validation.2.1
    { type := ModeType.upstream, full_spec := "upstream:ftp://host:21",
      data := "ftp://host:21",
      custom_listen_host := none, custom_listen_port := none,
      scheme := none, address := none } "ftp" ("host", 21) rfl
    (by decide) (by decide)

/-- C8: the listen accessors apply explicit > caller default > fixed
fallback; `parse("socks5")` listens on the variant default 1080 and
`parse("regular@1234")` listens on 1234 with the empty host. -/
theorem C8_listen_precedence :
    (∀ (m : ProxyMode) (p : Int) (d : Option Int),
      m.custom_listen_port = some p → listen_port m d = p) ∧
    (∀ (m : ProxyMode) (d : Int), m.custom_listen_port = none →
      listen_port m (some d) = d) ∧
    (∀ m : ProxyMode, m.custom_listen_port = none →
      listen_port m none = default_port m.type) ∧
    (∀ (m : ProxyMode) (hst : String) (d : Option String),
      m.custom_listen_host = some hst → listen_host m d = hst) ∧
    (∀ (m : ProxyMode) (d : String), m.custom_listen_host = none →
      listen_host m (some d) = d) ∧
    (∀ m : ProxyMode, m.custom_listen_host = none → listen_host m none = "") ∧
    parse "socks5" = Except.ok
      { type := ModeType.socks5, full_spec := "socks5", data := "",
        custom_listen_host := none, custom_listen_port := none,
        scheme := none, address := none } ∧
    listen_port
      { type := ModeType.socks5, full_spec := "socks5", data := "",
        custom_listen_host := none, custom_listen_port := none,
        scheme := none, address := none } none = 1080 ∧
    parse "regular@1234" = Except.ok
      { type := ModeType.regular, full_spec := "regular@1234", data := "",
        custom_listen_host := none, custom_listen_port := some 1234,
        scheme := none, address := none } ∧
    listen_port
      { type := ModeType.regular, full_spec := "regular@1234", data := "",
        custom_listen_host := none, custom_listen_port := some 1234,
        scheme := none, address := none } none = 1234 ∧
    listen_host
      { type := ModeType.regular, full_spec := "regular@1234", data := "",
        custom_listen_host := none, custom_listen_port := some 1234,
        scheme := none, address := none } none = "" := by
  refine ⟨?_, ?_, ?_, ?_, ?_, ?_, rfl, rfl, rfl, rfl, rfl⟩
  · intro m p d h; simp [listen_port, h]
  · intro m d h; simp [listen_port, h]
  · intro m h; simp [listen_port, h]
  · intro m hst d h; simp [listen_host, h]
  · intro m d h; simp [listen_host, h]
  · intro m h; simp [listen_host, h]

/-- Witness for C8: an explicit port wins over a caller default. -/
theorem C8_listen_precedence_witness :
    listen_port
      { type := ModeType.regular, full_spec := "regular@1234", data := "",
        custom_listen_host := none, custom_listen_port := some 1234,
        scheme := none, address := none } (some 9999) = 1234 :=
  C8_listen_precedence.1
    { type := ModeType.regular, full_spec := "regular@1234", data := "",
      custom_listen_host := none, custom_listen_port := some 1234,
      scheme := none, address := none } 1234 (some 9999) rfl

/-- C9: `set_state` fails with the frozen-state error exactly when the
new state differs from the full spec of the receiver, a success returns
the receiver unchanged, and setting the state to the current full spec
succeeds as a no-op. -/
theorem C9_set_state_frozen :
    (∀ (m : ProxyMode) (s : String),
      set_state m s = Except.error PError.frozen ↔ s ≠ m.full_spec) ∧
    (∀ (m : ProxyMode) (s : String) (m' : ProxyMode),
      set_state m s = Except.ok m' → m' = m) ∧
    (∀ m : ProxyMode, set_state m m.full_spec = Except.ok m) := by
  refine ⟨?_, ?_, ?_⟩
  · intro m s
    unfold set_state
    by_cases hc : s = m.full_spec <;> simp [hc]
  · intro m s m' h
    unfold set_state at h
    split at h
    · exact Except.noConfusion h
    · injection h with h2; exact h2.symm
  · intro m; simp [set_state]

/-- Witness for C9 at a concrete mode and a differing state string. -/
theorem C9_set_state_frozen_witness :
    set_state
      { type := ModeType.regular, full_spec := "regular", data := "",
        custom_listen_host := none, custom_listen_port := none,
        scheme := none, address := none } "socks5" =
      Except.error PError.frozen :=
  (C9_set_state_frozen.1
    { type := ModeType.regular, full_spec := "regular", data := "",
      custom_listen_host := none, custom_listen_port := none,
      scheme := none, address := none } "socks5").mpr (by decide)

/-- C10: whenever the text before the last `@` of a spec is empty, the
whole text after the `@` becomes the head and the listen segment is
empty, so `parse("@socks5")` succeeds as a socks5 mode with no custom
listen host or port instead of failing with `invalid port`. -/
theorem C10_empty_head :
    (∀ (s : String) (b : List Char), splitLast '@' s.data = some ([], b) →
      headListen s = (String.mk b, "")) ∧
    parse "@socks5" = Except.ok
      { type := ModeType.socks5, full_spec := "@socks5", data := "",
        custom_listen_host := none, custom_listen_port := none,
        scheme := none, address := none } := by
  refine ⟨?_, rfl⟩
  intro s b h
  unfold headListen pyRPartition
  rw [h]
  simp

/-- Witness for C10 at the concrete spec `"@socks5"`. -/
theorem C10_empty_head_witness :
    headListen "@socks5" = (String.mk ['s', 'o', 'c', 'k', 's', '5'], "") :=
  C10_empty_head.1 "@socks5" ['s', 'o', 'c', 'k', 's', '5'] (by decide)

end ModeSpecs
